import Mathlib

/-!
A shallow embedding of the MediaWiki MCP adapter (src/index.ts): the JSON
value model, the HTTP request/response model, the authenticated transport,
the bot login procedure, the configuration step and the operation handlers,
together with theorems settling the specification claims.

Side effects of the TypeScript source are made explicit:
* the three module-level mutable variables (`mediaWikiAPIBase`,
  `wikiBaseAPIBase`, `sessionCookie`) become a `ServerState` value threaded
  through every procedure;
* the platform `fetch` becomes a `net : Request → Response` parameter, and
  every HTTP call a procedure makes is recorded, in dispatch order, in a
  request trace;
* a thrown `Error` becomes `Except.error` carrying the message string
  (`handleError` rethrows with the identical message, so the `try/catch`
  wrappers of some handlers are the identity on the error value);
* `console.log` / `console.error` logging is not modelled.
-/

set_option maxHeartbeats 1000000
set_option maxRecDepth 4000

/-- JSON values as produced by `response.json()`. -/
inductive Json where
  | null : Json
  | bool : Bool → Json
  | num : Int → Json
  | str : String → Json
  | arr : List Json → Json
  | obj : List (String × Json) → Json

/-- Field lookup on a JSON object (`x.field` in JavaScript); `none` models
`undefined`, returned on non-objects and absent keys. -/
def Json.getField : Json → String → Option Json
  | .obj fields, k => (fields.find? (fun p => p.1 == k)).map (·.2)
  | _, _ => none

/-- Optional-chaining field access, `x?.field`. -/
def jsField (j : Option Json) (k : String) : Option Json :=
  j.bind (fun v => v.getField k)

/-- A chain of optional-chaining field accesses, `x?.a?.b?.c`. -/
def jsGet (j : Json) (path : List String) : Option Json :=
  path.foldl jsField (some j)

/-- Optional-chaining array index, `x?.[i]`. -/
def jsIndex (j : Option Json) (i : Nat) : Option Json :=
  j.bind (fun v => match v with | .arr xs => xs.get? i | _ => none)

/-- `Object.values(x)[0]`: the first property value of a JSON object. -/
def Json.firstValue : Json → Option Json
  | .obj fields => fields.head?.map (·.2)
  | _ => none

/-- JavaScript truthiness of a possibly-undefined JSON value. -/
def jsTruthy : Option Json → Bool
  | none => false
  | some .null => false
  | some (.bool b) => b
  | some (.num n) => n != 0
  | some (.str s) => s != ""
  | some (.arr _) => true
  | some (.obj _) => true

/-- JavaScript string coercion of a JSON value, as `URLSearchParams` and
template literals apply it to non-string values. -/
def Json.toParamString : Json → String
  | .null => "null"
  | .bool true => "true"
  | .bool false => "false"
  | .num n => toString n
  | .str s => s
  | .arr xs => String.intercalate "," (xs.attach.map (fun x => x.1.toParamString))
  | .obj _ => "[object Object]"
decreasing_by simp_wf; have := List.sizeOf_lt_of_mem x.2; omega

/-- String coercion of a possibly-undefined JSON value. -/
def jsParamString : Option Json → String
  | some v => v.toParamString
  | none => "undefined"

/-- JavaScript strict equality `x === s` of a possibly-undefined JSON value
with a string literal. -/
def jsEqStr (j : Option Json) (s : String) : Bool :=
  match j with
  | some (.str t) => t == s
  | _ => false

/-- JavaScript strict equality `x === n` of a possibly-undefined JSON value
with a number literal. -/
def jsEqNum (j : Option Json) (n : Int) : Bool :=
  match j with
  | some (.num m) => m == n
  | _ => false

/-- HTTP request method. Only GET and POST occur in the adapter. -/
inductive Method where
  | get : Method
  | post : Method
deriving DecidableEq

/-- An outbound HTTP request: method, full URL (query string included),
headers, and the form-encoded body (empty for GET requests). -/
structure Request where
  method : Method
  url : String
  headers : List (String × String)
  body : List (String × String)

/-- An upstream HTTP response as the adapter observes it: the `ok` flag,
`statusText`, response headers, and the decoded JSON payload. -/
structure Response where
  ok : Bool
  statusText : String
  headers : List (String × String)
  body : Json

/-- `headers.get(name)`: response-header lookup, case-insensitive. -/
def getHeader (hs : List (String × String)) (k : String) : Option String :=
  (hs.find? (fun p => p.1.toLower == k.toLower)).map (·.2)

/-- JavaScript property assignment `headers[k] = v` on a header record
(record keys are unique, so at most one binding matches): overwrites the
binding in place when the key is present, appends otherwise. -/
def setHeader : List (String × String) → String → String → List (String × String)
  | [], k, v => [(k, v)]
  | p :: t, k, v => if p.1 == k then (k, v) :: t else p :: setHeader t k v

/-- Request-header lookup by exact key, as JavaScript property access reads
a header record. -/
def headerValue (hs : List (String × String)) (k : String) : Option String :=
  (hs.find? (fun p => p.1 == k)).map (·.2)

/-- The upstream network, mapping each dispatched request to its response.
Stands in for the platform `fetch`. -/
abbrev Net := Request → Response

/-- The three module-level mutable variables of src/index.ts. -/
structure ServerState where
  mediaWikiAPIBase : String
  wikiBaseAPIBase : String
  sessionCookie : Option String

/-- The fixed identifying header value sent on every request. -/
def USER_AGENT : String := "mediawikiadapter-app/1.0"

/-- The module state at startup: default API bases, no session cookie. -/
def initialState : ServerState :=
  { mediaWikiAPIBase := "https://en.wikipedia.org/w/api.php"
    wikiBaseAPIBase := "https://www.wikidata.org/w/api.php"
    sessionCookie := none }

/-- Headers of a plain GET issued by a handler. -/
def uaHeader : List (String × String) := [("User-Agent", USER_AGENT)]

/-- Headers of a form-encoded POST issued by a handler. -/
def postHeaders : List (String × String) :=
  [("User-Agent", USER_AGENT), ("Content-Type", "application/x-www-form-urlencoded")]

/-- The header set `authenticatedFetch` dispatches: `if (sessionCookie)` is
a JavaScript truthiness test, so only a set, non-empty cookie string is
assigned into the caller-provided header record
(`headers["Cookie"] = sessionCookie`); a null or empty cookie attaches
nothing. -/
def authHeaders (sessionCookie : Option String) (hs : List (String × String)) :
    List (String × String) :=
  match sessionCookie with
  | some c => if c != "" then setHeader hs "Cookie" c else hs
  | none => hs

/-- `authenticatedFetch(url, options)` (src/index.ts lines 606–617): builds
the outbound request with the session cookie merged into the headers,
dispatches it, and returns the request together with the upstream response. -/
def authenticatedFetch (st : ServerState) (net : Net) (m : Method) (url : String)
    (hs : List (String × String)) (body : List (String × String)) :
    Request × Response :=
  let req : Request := { method := m, url := url, headers := authHeaders st.sessionCookie hs, body := body }
  (req, net req)

/-- Hexadecimal digit character for `n < 16`. -/
def hexChar (n : Nat) : Char :=
  if n < 10 then Char.ofNat (48 + n) else Char.ofNat (55 + n)

/-- A percent-encoded byte, `%HH`. -/
def percentByte (n : Nat) : String :=
  String.mk ['%', hexChar (n / 16), hexChar (n % 16)]

/-- Characters `encodeURIComponent` leaves unescaped (ECMA-262). -/
def uriUnreserved (c : Char) : Bool :=
  c.isAlphanum || "-_.!~*()".toList.contains c || c == Char.ofNat 39

/-- The platform `encodeURIComponent`: percent-encodes the UTF-8 bytes of
every character outside the unreserved set. -/
def encodeURIComponent (s : String) : String :=
  String.join (s.toList.map (fun c =>
    if uriUnreserved c then String.mk [c]
    else String.join ((String.mk [c]).toUTF8.toList.map (fun b => percentByte b.toNat))))

/-- Result of one procedure invocation: the final module state, the requests
dispatched in order, and the returned value or thrown error message. -/
structure HandlerRun (α : Type) where
  state : ServerState
  trace : List Request
  result : Except String α

/-- Output shape of the handlers that return `{ success: boolean }`. -/
structure SuccessOut where
  success : Bool
deriving DecidableEq

/-- The `editPage` tool handler (src/index.ts lines 150–203). Its
`try/catch` with `handleError` rethrows the same message and is therefore
the identity on the error value. -/
def editPage (st : ServerState) (net : Net) (title content : String)
    (summary : Option String) : HandlerRun SuccessOut :=
  let url := st.mediaWikiAPIBase ++ "?action=edit&format=json"
  let (tokenReq, tokenResponse) :=
    authenticatedFetch st net .get
      (st.mediaWikiAPIBase ++ "?action=query&meta=tokens&format=json") uaHeader []
  if !tokenResponse.ok then
    ⟨st, [tokenReq], .error ("Failed to fetch edit token: " ++ tokenResponse.statusText)⟩
  else
    let editToken := jsGet tokenResponse.body ["query", "tokens", "csrftoken"]
    if !(jsTruthy editToken) then
      ⟨st, [tokenReq], .error "Failed to retrieve edit token."⟩
    else
      let (editReq, editResponse) := authenticatedFetch st net .post url postHeaders
        [("title", title), ("text", content), ("summary", summary.getD ""),
         ("token", jsParamString editToken)]
      if !editResponse.ok then
        ⟨st, [tokenReq, editReq], .error ("Failed to edit page: " ++ editResponse.statusText)⟩
      else
        ⟨st, [tokenReq, editReq], .ok ⟨jsEqStr (jsGet editResponse.body ["edit", "result"]) "Success"⟩⟩

/-- The `getPageContent` resource handler (src/index.ts lines 101–136).
Returns the raw JSON value found at `query.pages[firstValue].revisions[0]["*"]`;
its `try/catch` with `handleError` is the identity on the error value. -/
def getPageContent (st : ServerState) (net : Net) (title : String) :
    HandlerRun Json :=
  let url := st.mediaWikiAPIBase ++
    "?action=query&format=json&prop=revisions&rvprop=content&titles=" ++
    encodeURIComponent title
  let (req, response) := authenticatedFetch st net .get url uaHeader []
  if !response.ok then
    ⟨st, [req], .error ("Failed to fetch page content: " ++ response.statusText)⟩
  else
    let pages := jsGet response.body ["query", "pages"]
    let page := if jsTruthy pages then pages.bind Json.firstValue else none
    let content := jsField (jsIndex (jsField page "revisions") 0) "*"
    if !(jsTruthy content) then
      ⟨st, [req], .error ("Page \"" ++ title ++ "\" not found or has no content.")⟩
    else
      ⟨st, [req], .ok (content.getD .null)⟩

/-- Output shape of `getPageSearchResults`: one entry per upstream search
hit, holding the hit's possibly-undefined `title` field. -/
structure SearchOut where
  results : List (Option Json)

/-- The `getPageSearchResults` tool handler (src/index.ts lines 214–233).
`data.query?.search?.map(...) || []` yields `[]` when the `search` field is
absent or falsy, maps when it is an array, and throws a `TypeError` on a
truthy non-array value. -/
def getPageSearchResults (st : ServerState) (net : Net) (query : String)
    (limit : Option Int) : HandlerRun SearchOut :=
  let lim := limit.getD 10
  let url := st.mediaWikiAPIBase ++ "?action=query&list=search&format=json&srsearch=" ++
    encodeURIComponent query ++ "&srlimit=" ++ toString lim
  let (req, response) := authenticatedFetch st net .get url uaHeader []
  if !response.ok then
    ⟨st, [req], .error ("Failed to search pages: " ++ response.statusText)⟩
  else
    match jsGet response.body ["query", "search"] with
    | some (.arr hits) => ⟨st, [req], .ok ⟨hits.map (fun item => item.getField "title")⟩⟩
    | some v =>
      if jsTruthy (some v) then
        ⟨st, [req], .error "TypeError: data.query.search.map is not a function"⟩
      else ⟨st, [req], .ok ⟨[]⟩⟩
    | none => ⟨st, [req], .ok ⟨[]⟩⟩

/-- Output shape of `getPageMetadata`: the possibly-undefined `pageid` and
`touched` fields of the first page entry, and the contributor names. -/
structure MetadataOut where
  pageId : Option Json
  lastEdited : Option Json
  contributors : List (Option Json)

/-- The `getPageMetadata` tool handler (src/index.ts lines 245–273).
`page.contributors?.map((c) => c.name) || []` yields `[]` when the
`contributors` field is absent or falsy. -/
def getPageMetadata (st : ServerState) (net : Net) (title : String) :
    HandlerRun MetadataOut :=
  let url := st.mediaWikiAPIBase ++ "?action=query&format=json&prop=info|contributors&titles=" ++
    encodeURIComponent title
  let (req, response) := authenticatedFetch st net .get url uaHeader []
  if !response.ok then
    ⟨st, [req], .error ("Failed to fetch page metadata: " ++ response.statusText)⟩
  else
    let pages := jsGet response.body ["query", "pages"]
    let page := if jsTruthy pages then pages.bind Json.firstValue else none
    if !(jsTruthy page) then
      ⟨st, [req], .error ("Page \"" ++ title ++ "\" not found.")⟩
    else
      match jsField page "contributors" with
      | some (.arr cs) =>
        ⟨st, [req], .ok ⟨jsField page "pageid", jsField page "touched",
          cs.map (fun c => c.getField "name")⟩⟩
      | some v =>
        if jsTruthy (some v) then
          ⟨st, [req], .error "TypeError: page.contributors.map is not a function"⟩
        else ⟨st, [req], .ok ⟨jsField page "pageid", jsField page "touched", []⟩⟩
      | none => ⟨st, [req], .ok ⟨jsField page "pageid", jsField page "touched", []⟩⟩

/-- The `createPage` tool handler (src/index.ts lines 285–331). Identical
request sequence to `editPage`, with its own error messages. -/
def createPage (st : ServerState) (net : Net) (title content : String)
    (summary : Option String) : HandlerRun SuccessOut :=
  let url := st.mediaWikiAPIBase ++ "?action=edit&format=json"
  let (tokenReq, tokenResponse) :=
    authenticatedFetch st net .get
      (st.mediaWikiAPIBase ++ "?action=query&meta=tokens&format=json") uaHeader []
  if !tokenResponse.ok then
    ⟨st, [tokenReq], .error ("Failed to fetch edit token: " ++ tokenResponse.statusText)⟩
  else
    let editToken := jsGet tokenResponse.body ["query", "tokens", "csrftoken"]
    if !(jsTruthy editToken) then
      ⟨st, [tokenReq], .error "Failed to retrieve edit token."⟩
    else
      let (editReq, editResponse) := authenticatedFetch st net .post url postHeaders
        [("title", title), ("text", content), ("summary", summary.getD ""),
         ("token", jsParamString editToken)]
      if !editResponse.ok then
        ⟨st, [tokenReq, editReq], .error ("Failed to create page: " ++ editResponse.statusText)⟩
      else
        ⟨st, [tokenReq, editReq], .ok ⟨jsEqStr (jsGet editResponse.body ["edit", "result"]) "Success"⟩⟩

/-- The `deletePage` tool handler (src/index.ts lines 342–387). -/
def deletePage (st : ServerState) (net : Net) (title : String)
    (reason : Option String) : HandlerRun SuccessOut :=
  let url := st.mediaWikiAPIBase ++ "?action=delete&format=json"
  let (tokenReq, tokenResponse) :=
    authenticatedFetch st net .get
      (st.mediaWikiAPIBase ++ "?action=query&meta=tokens&format=json") uaHeader []
  if !tokenResponse.ok then
    ⟨st, [tokenReq], .error ("Failed to fetch delete token: " ++ tokenResponse.statusText)⟩
  else
    let deleteToken := jsGet tokenResponse.body ["query", "tokens", "csrftoken"]
    if !(jsTruthy deleteToken) then
      ⟨st, [tokenReq], .error "Failed to retrieve delete token."⟩
    else
      let (deleteReq, deleteResponse) := authenticatedFetch st net .post url postHeaders
        [("title", title), ("reason", reason.getD ""), ("token", jsParamString deleteToken)]
      if !deleteResponse.ok then
        ⟨st, [tokenReq, deleteReq], .error ("Failed to delete page: " ++ deleteResponse.statusText)⟩
      else
        ⟨st, [tokenReq, deleteReq], .ok ⟨jsEqStr (jsGet deleteResponse.body ["delete", "result"]) "Success"⟩⟩

/-- The `getEntityData` tool handler (src/index.ts lines 397–420). -/
def getEntityData (st : ServerState) (net : Net) (id : String) :
    HandlerRun Json :=
  let url := st.wikiBaseAPIBase ++ "?action=wbgetentities&format=json&ids=" ++
    encodeURIComponent id
  let (req, response) := authenticatedFetch st net .get url uaHeader []
  if !response.ok then
    ⟨st, [req], .error ("Failed to fetch entity data: " ++ response.statusText)⟩
  else
    let entity := jsGet response.body ["entities", id]
    if !(jsTruthy entity) then
      ⟨st, [req], .error ("Entity \"" ++ id ++ "\" not found.")⟩
    else
      ⟨st, [req], .ok (entity.getD .null)⟩

/-- Output shape of `searchEntities`: one entry per upstream hit, holding
the hit's possibly-undefined `id` and `label` fields. -/
structure EntitySearchOut where
  results : List (Option Json × Option Json)

/-- The `searchEntities` tool handler (src/index.ts lines 437–461). -/
def searchEntities (st : ServerState) (net : Net) (search ty : String)
    (limit : Option Int) : HandlerRun EntitySearchOut :=
  let lim := limit.getD 10
  let url := st.wikiBaseAPIBase ++ "?action=wbsearchentities&format=json&search=" ++
    encodeURIComponent search ++ "&type=" ++ ty ++ "&limit=" ++ toString lim
  let (req, response) := authenticatedFetch st net .get url uaHeader []
  if !response.ok then
    ⟨st, [req], .error ("Failed to search entities: " ++ response.statusText)⟩
  else
    match jsGet response.body ["search"] with
    | some (.arr hits) =>
      ⟨st, [req], .ok ⟨hits.map (fun item => (item.getField "id", item.getField "label"))⟩⟩
    | some v =>
      if jsTruthy (some v) then
        ⟨st, [req], .error "TypeError: data.search.map is not a function"⟩
      else ⟨st, [req], .ok ⟨[]⟩⟩
    | none => ⟨st, [req], .ok ⟨[]⟩⟩

/-- Output shape of `editEntity`: the success flag and the
possibly-undefined `entity.id` field of the response. -/
structure EntityEditOut where
  success : Bool
  id : Option Json

/-- The `editEntity` tool handler (src/index.ts lines 474–523). The
platform builtin `JSON.stringify` is passed in as `stringify`. -/
def editEntity (st : ServerState) (net : Net) (stringify : Json → String)
    (id : Option String) (data : Json) (summary : Option String) :
    HandlerRun EntityEditOut :=
  let url := st.wikiBaseAPIBase ++ "?action=wbeditentity&format=json"
  let (tokenReq, tokenResponse) :=
    authenticatedFetch st net .get
      (st.wikiBaseAPIBase ++ "?action=query&meta=tokens&format=json&type=csrf") uaHeader []
  if !tokenResponse.ok then
    ⟨st, [tokenReq], .error ("Failed to fetch edit token: " ++ tokenResponse.statusText)⟩
  else
    let editToken := jsGet tokenResponse.body ["query", "tokens", "csrftoken"]
    if !(jsTruthy editToken) then
      ⟨st, [tokenReq], .error "Failed to retrieve edit token."⟩
    else
      let (editReq, editResponse) := authenticatedFetch st net .post url postHeaders
        [("id", id.getD ""), ("data", stringify data), ("summary", summary.getD ""),
         ("token", jsParamString editToken)]
      if !editResponse.ok then
        ⟨st, [tokenReq, editReq], .error ("Failed to edit entity: " ++ editResponse.statusText)⟩
      else
        ⟨st, [tokenReq, editReq], .ok ⟨jsEqNum (jsGet editResponse.body ["success"]) 1,
          jsGet editResponse.body ["entity", "id"]⟩⟩

/-- The `addStatement` tool handler (src/index.ts lines 535–582). -/
def addStatement (st : ServerState) (net : Net) (stringify : Json → String)
    (id prop : String) (value : Json) : HandlerRun SuccessOut :=
  let url := st.wikiBaseAPIBase ++ "?action=wbcreateclaim&format=json"
  let (tokenReq, tokenResponse) :=
    authenticatedFetch st net .get
      (st.wikiBaseAPIBase ++ "?action=query&meta=tokens&format=json&type=csrf") uaHeader []
  if !tokenResponse.ok then
    ⟨st, [tokenReq], .error ("Failed to fetch claim token: " ++ tokenResponse.statusText)⟩
  else
    let claimToken := jsGet tokenResponse.body ["query", "tokens", "csrftoken"]
    if !(jsTruthy claimToken) then
      ⟨st, [tokenReq], .error "Failed to retrieve claim token."⟩
    else
      let (claimReq, claimResponse) := authenticatedFetch st net .post url postHeaders
        [("entity", id), ("property", prop), ("snaktype", "value"),
         ("value", stringify value), ("token", jsParamString claimToken)]
      if !claimResponse.ok then
        ⟨st, [tokenReq, claimReq], .error ("Failed to add statement: " ++ claimResponse.statusText)⟩
      else
        ⟨st, [tokenReq, claimReq], .ok ⟨jsEqNum (jsGet claimResponse.body ["success"]) 1⟩⟩

/-- `loginAsBot(username, password)` (src/index.ts lines 21–69). Uses the
plain platform `fetch`, not `authenticatedFetch`, so no cookie is attached.
On success it stores `loginResponse.headers.get("set-cookie")` — possibly
`null` — into `sessionCookie`. -/
def loginAsBot (st : ServerState) (net : Net) (username password : String) :
    HandlerRun Unit :=
  let tokenReq : Request :=
    { method := .get
      url := st.mediaWikiAPIBase ++ "?action=query&meta=tokens&type=login&format=json"
      headers := uaHeader
      body := [] }
  let tokenResponse := net tokenReq
  if !tokenResponse.ok then
    ⟨st, [tokenReq], .error ("Failed to fetch login token: " ++ tokenResponse.statusText)⟩
  else
    let loginToken := jsGet tokenResponse.body ["query", "tokens", "logintoken"]
    if !(jsTruthy loginToken) then
      ⟨st, [tokenReq], .error "Failed to retrieve login token."⟩
    else
      let loginReq : Request :=
        { method := .post
          url := st.mediaWikiAPIBase ++ "?action=login&format=json"
          headers := postHeaders
          body := [("lgname", username), ("lgpassword", password),
                   ("lgtoken", jsParamString loginToken)] }
      let loginResponse := net loginReq
      if !loginResponse.ok then
        ⟨st, [tokenReq, loginReq], .error ("Failed to log in: " ++ loginResponse.statusText)⟩
      else
        let result := jsGet loginResponse.body ["login", "result"]
        if !(jsEqStr result "Success") then
          let reason := jsGet loginResponse.body ["login", "reason"]
          ⟨st, [tokenReq, loginReq], .error ("Login failed: " ++
            (if jsTruthy reason then jsParamString reason else "Unknown reason"))⟩
        else
          ⟨{ st with sessionCookie := getHeader loginResponse.headers "set-cookie" },
           [tokenReq, loginReq], .ok ()⟩

/-- The configuration object accepted by `onConfigure`, after Zod has
checked its shape (`ConfigSchema`, src/index.ts lines 7–12: four optional
fields, the two API bases additionally required to be well-formed URLs). -/
structure Config where
  mediaWikiAPIBase : Option String
  wikiBaseAPIBase : Option String
  botUsername : Option String
  botPassword : Option String

/-- `ConfigSchema.parse`: Zod is an external collaborator, so its URL
well-formedness check is abstracted into the `validUrl` parameter; all four
fields are optional, so presence of credentials is never required. -/
def parseConfig (validUrl : String → Bool) (cfg : Config) : Except String Config :=
  if (cfg.mediaWikiAPIBase.all validUrl) && (cfg.wikiBaseAPIBase.all validUrl) then
    .ok cfg
  else
    .error "ZodError: Invalid url"

/-- JavaScript truthiness of an optional string field (`if (x)`). -/
def strTruthy : Option String → Bool
  | none => false
  | some s => s != ""

/-- The `onConfigure` hook (src/index.ts lines 586–602): parse the config,
overwrite the API bases when provided (and truthy), and run `loginAsBot`
only when both credentials are truthy. -/
def onConfigure (st : ServerState) (net : Net) (validUrl : String → Bool)
    (cfg : Config) : HandlerRun Unit :=
  match parseConfig validUrl cfg with
  | .error e => ⟨st, [], .error e⟩
  | .ok c =>
    let st1 := { st with
      mediaWikiAPIBase :=
        if strTruthy c.mediaWikiAPIBase then c.mediaWikiAPIBase.getD st.mediaWikiAPIBase
        else st.mediaWikiAPIBase
      wikiBaseAPIBase :=
        if strTruthy c.wikiBaseAPIBase then c.wikiBaseAPIBase.getD st.wikiBaseAPIBase
        else st.wikiBaseAPIBase }
    if strTruthy c.botUsername && strTruthy c.botPassword then
      loginAsBot st1 net (c.botUsername.getD "") (c.botPassword.getD "")
    else
      ⟨st1, [], .ok ()⟩

@[simp]
theorem jsField_none (k : String) : jsField none k = none := rfl

@[simp]
theorem jsIndex_none (i : Nat) : jsIndex none i = none := rfl

theorem headerValue_setHeader (hs : List (String × String)) (k v : String) :
    headerValue (setHeader hs k v) k = some v := by
  induction hs with
  | nil => simp [headerValue, setHeader]
  | cons p t ih =>
    by_cases hp : p.1 = k
    · simp [headerValue, setHeader, hp]
    · simpa [headerValue, setHeader, hp] using ih

/-- The token-fetch request the MediaWiki write handlers (`editPage`,
`createPage`, `deletePage`) dispatch first. -/
def mwTokenRequest (st : ServerState) : Request :=
  { method := .get
    url := st.mediaWikiAPIBase ++ "?action=query&meta=tokens&format=json"
    headers := authHeaders st.sessionCookie uaHeader
    body := [] }

/-- The token-fetch request the Wikibase write handlers (`editEntity`,
`addStatement`) dispatch first. -/
def wbTokenRequest (st : ServerState) : Request :=
  { method := .get
    url := st.wikiBaseAPIBase ++ "?action=query&meta=tokens&format=json&type=csrf"
    headers := authHeaders st.sessionCookie uaHeader
    body := [] }

/-- The login-token request `loginAsBot` dispatches first (plain `fetch`,
no cookie). -/
def loginTokenRequest (st : ServerState) : Request :=
  { method := .get
    url := st.mediaWikiAPIBase ++ "?action=query&meta=tokens&type=login&format=json"
    headers := uaHeader
    body := [] }

/-- The credentialed login POST `loginAsBot` dispatches second. -/
def loginRequest (st : ServerState) (username password tok : String) : Request :=
  { method := .post
    url := st.mediaWikiAPIBase ++ "?action=login&format=json"
    headers := postHeaders
    body := [("lgname", username), ("lgpassword", password), ("lgtoken", tok)] }

/-- The write POST `editPage` dispatches when the token phase succeeded
with token string `tok`. -/
def editWriteRequest (st : ServerState) (title content : String)
    (summary : Option String) (tok : String) : Request :=
  { method := .post
    url := st.mediaWikiAPIBase ++ "?action=edit&format=json"
    headers := authHeaders st.sessionCookie postHeaders
    body := [("title", title), ("text", content), ("summary", summary.getD ""), ("token", tok)] }

/-- The write POST `deletePage` dispatches when the token phase succeeded. -/
def deleteWriteRequest (st : ServerState) (title : String)
    (reason : Option String) (tok : String) : Request :=
  { method := .post
    url := st.mediaWikiAPIBase ++ "?action=delete&format=json"
    headers := authHeaders st.sessionCookie postHeaders
    body := [("title", title), ("reason", reason.getD ""), ("token", tok)] }

/-- The write POST `editEntity` dispatches when the token phase succeeded. -/
def entityWriteRequest (st : ServerState) (stringify : Json → String)
    (id : Option String) (data : Json) (summary : Option String) (tok : String) : Request :=
  { method := .post
    url := st.wikiBaseAPIBase ++ "?action=wbeditentity&format=json"
    headers := authHeaders st.sessionCookie postHeaders
    body := [("id", id.getD ""), ("data", stringify data), ("summary", summary.getD ""),
             ("token", tok)] }

/-- The write POST `addStatement` dispatches when the token phase succeeded. -/
def claimWriteRequest (st : ServerState) (stringify : Json → String)
    (id prop : String) (value : Json) (tok : String) : Request :=
  { method := .post
    url := st.wikiBaseAPIBase ++ "?action=wbcreateclaim&format=json"
    headers := authHeaders st.sessionCookie postHeaders
    body := [("entity", id), ("property", prop), ("snaktype", "value"),
             ("value", stringify value), ("token", tok)] }

/-- The content-fetch GET `getPageContent` dispatches. -/
def contentRequest (st : ServerState) (title : String) : Request :=
  { method := .get
    url := st.mediaWikiAPIBase ++
      "?action=query&format=json&prop=revisions&rvprop=content&titles=" ++
      encodeURIComponent title
    headers := authHeaders st.sessionCookie uaHeader
    body := [] }

/-- The search GET `getPageSearchResults` dispatches. -/
def searchRequest (st : ServerState) (query : String) (limit : Option Int) : Request :=
  { method := .get
    url := st.mediaWikiAPIBase ++ "?action=query&list=search&format=json&srsearch=" ++
      encodeURIComponent query ++ "&srlimit=" ++ toString (limit.getD 10)
    headers := authHeaders st.sessionCookie uaHeader
    body := [] }

/-- The metadata GET `getPageMetadata` dispatches. -/
def metadataRequest (st : ServerState) (title : String) : Request :=
  { method := .get
    url := st.mediaWikiAPIBase ++ "?action=query&format=json&prop=info|contributors&titles=" ++
      encodeURIComponent title
    headers := authHeaders st.sessionCookie uaHeader
    body := [] }

/-- The `query.tokens.csrftoken` field of a token-fetch response. -/
def csrfTokenOf (r : Response) : Option Json :=
  jsGet r.body ["query", "tokens", "csrftoken"]

/-- The first page entry of a content or metadata response,
`data.query?.pages` then `Object.values(pages)[0]` guarded by truthiness. -/
def firstPageOf (r : Response) : Option Json :=
  let pages := jsGet r.body ["query", "pages"]
  if jsTruthy pages then pages.bind Json.firstValue else none

/-- The raw content field of a content response:
`page?.revisions?.[0]?.["*"]`. -/
def contentOf (r : Response) : Option Json :=
  jsField (jsIndex (jsField (firstPageOf r) "revisions") 0) "*"

/-- A transport-successful response with the given JSON payload. -/
def okJsonResponse (b : Json) : Response :=
  { ok := true, statusText := "OK", headers := [], body := b }

/-- A token-fetch payload carrying `query.tokens.csrftoken`. -/
def csrfTokenBody (tok : String) : Json :=
  .obj [("query", .obj [("tokens", .obj [("csrftoken", .str tok)])])]

/-- C3 counterexample: with the session credential set, a `Cookie` header the
caller explicitly passed in the request options is overwritten by the
process-wide session credential, contradicting the claim that a caller-set
credential header is never overwritten. -/
theorem claim_C3_counterexample :
    (authenticatedFetch
        { mediaWikiAPIBase := "https://en.wikipedia.org/w/api.php"
          wikiBaseAPIBase := "https://www.wikidata.org/w/api.php"
          sessionCookie := some "session=GLOBAL" }
        (fun _ => okJsonResponse .null) .get "https://example.test/api.php"
        [("Cookie", "caller=EXPLICIT")] []).1.headers
      = [("Cookie", "session=GLOBAL")] ∧
    ("session=GLOBAL" : String) ≠ "caller=EXPLICIT" := by
  exact ⟨rfl, by decide⟩

/-- C3 (amended): when a session credential is set to a non-empty (truthy)
string, it is merged into the outbound headers of every request dispatched
through `authenticatedFetch`, and whenever it is attached it overwrites any
`Cookie` header the caller explicitly set (`headers["Cookie"] =
sessionCookie` inside the truthiness guard); when the credential is unset —
or set to the empty string, which is falsy — the caller's headers pass
through unchanged. -/
theorem claim_C3_session_cookie_merge :
    (∀ (st : ServerState) (net : Net) (m : Method) (url : String)
        (hs : List (String × String)) (body : List (String × String)) (c : String),
        st.sessionCookie = some c → c ≠ "" →
        headerValue (authenticatedFetch st net m url hs body).1.headers "Cookie" = some c) ∧
    (∀ (st : ServerState) (net : Net) (m : Method) (url : String)
        (hs : List (String × String)) (body : List (String × String)),
        st.sessionCookie = none →
        (authenticatedFetch st net m url hs body).1.headers = hs) ∧
    (∀ (st : ServerState) (net : Net) (m : Method) (url : String)
        (hs : List (String × String)) (body : List (String × String)),
        st.sessionCookie = some "" →
        (authenticatedFetch st net m url hs body).1.headers = hs) := by
  refine ⟨?_, ?_, ?_⟩
  · intro st net m url hs body c hc hne
    simp [authenticatedFetch, authHeaders, hc, hne, headerValue_setHeader]
  · intro st net m url hs body hc
    simp [authenticatedFetch, authHeaders, hc]
  · intro st net m url hs body hc
    simp [authenticatedFetch, authHeaders, hc]

/-- C3 witness: the amended statement applied at a concrete state with the
credential set and a caller-provided `Cookie` header. -/
theorem claim_C3_witness :
    headerValue (authenticatedFetch
        { mediaWikiAPIBase := "m", wikiBaseAPIBase := "w", sessionCookie := some "sid=1" }
        (fun _ => okJsonResponse .null) .get "u" [("Cookie", "old")] []).1.headers "Cookie"
      = some "sid=1" :=
  claim_C3_session_cookie_merge.1 _ _ _ _ _ _ _ rfl (by decide)

/-- C10: every operation handler invocation — read or mutating, whatever the
upstream responses — returns the module state it was given, session cookie
included; in the embedding only `loginAsBot` (and `onConfigure` through it)
ever produces a changed state. -/
theorem claim_C10_handlers_preserve_state :
    (∀ st net title, (getPageContent st net title).state = st) ∧
    (∀ st net title content summary, (editPage st net title content summary).state = st) ∧
    (∀ st net q lim, (getPageSearchResults st net q lim).state = st) ∧
    (∀ st net title, (getPageMetadata st net title).state = st) ∧
    (∀ st net title content summary, (createPage st net title content summary).state = st) ∧
    (∀ st net title reason, (deletePage st net title reason).state = st) ∧
    (∀ st net id, (getEntityData st net id).state = st) ∧
    (∀ st net s ty lim, (searchEntities st net s ty lim).state = st) ∧
    (∀ st net f id data summary, (editEntity st net f id data summary).state = st) ∧
    (∀ st net f id prop value, (addStatement st net f id prop value).state = st) := by
  refine ⟨?_, ?_, ?_, ?_, ?_, ?_, ?_, ?_, ?_, ?_⟩
  · intro st net title
    simp only [getPageContent, authenticatedFetch]
    repeat' split
    all_goals rfl
  · intro st net title content summary
    simp only [editPage, authenticatedFetch]
    repeat' split
    all_goals rfl
  · intro st net q lim
    simp only [getPageSearchResults, authenticatedFetch]
    repeat' split
    all_goals rfl
  · intro st net title
    simp only [getPageMetadata, authenticatedFetch]
    repeat' split
    all_goals rfl
  · intro st net title content summary
    simp only [createPage, authenticatedFetch]
    repeat' split
    all_goals rfl
  · intro st net title reason
    simp only [deletePage, authenticatedFetch]
    repeat' split
    all_goals rfl
  · intro st net id
    simp only [getEntityData, authenticatedFetch]
    repeat' split
    all_goals rfl
  · intro st net s ty lim
    simp only [searchEntities, authenticatedFetch]
    repeat' split
    all_goals rfl
  · intro st net f id data summary
    simp only [editEntity, authenticatedFetch]
    repeat' split
    all_goals rfl
  · intro st net f id prop value
    simp only [addStatement, authenticatedFetch]
    repeat' split
    all_goals rfl

/-- C1: for each of the five mutating handlers, when the token fetch
succeeds with a (non-empty) token string `s`, the dispatched trace is
exactly the token-fetch GET followed by the write POST, and the write
request's form-encoded body carries `s` unmodified in its `token` field. -/
theorem claim_C1_token_fetch_precedes_write :
    (∀ (st : ServerState) (net : Net) (title content : String)
        (summary : Option String) (s : String),
        (net (mwTokenRequest st)).ok = true →
        csrfTokenOf (net (mwTokenRequest st)) = some (.str s) → s ≠ "" →
        (editPage st net title content summary).trace
          = [mwTokenRequest st, editWriteRequest st title content summary s] ∧
        (editWriteRequest st title content summary s).body.lookup "token" = some s ∧
        (editWriteRequest st title content summary s).method = .post) ∧
    (∀ (st : ServerState) (net : Net) (title content : String)
        (summary : Option String) (s : String),
        (net (mwTokenRequest st)).ok = true →
        csrfTokenOf (net (mwTokenRequest st)) = some (.str s) → s ≠ "" →
        (createPage st net title content summary).trace
          = [mwTokenRequest st, editWriteRequest st title content summary s] ∧
        (editWriteRequest st title content summary s).body.lookup "token" = some s ∧
        (editWriteRequest st title content summary s).method = .post) ∧
    (∀ (st : ServerState) (net : Net) (title : String)
        (reason : Option String) (s : String),
        (net (mwTokenRequest st)).ok = true →
        csrfTokenOf (net (mwTokenRequest st)) = some (.str s) → s ≠ "" →
        (deletePage st net title reason).trace
          = [mwTokenRequest st, deleteWriteRequest st title reason s] ∧
        (deleteWriteRequest st title reason s).body.lookup "token" = some s ∧
        (deleteWriteRequest st title reason s).method = .post) ∧
    (∀ (st : ServerState) (net : Net) (f : Json → String) (id : Option String)
        (data : Json) (summary : Option String) (s : String),
        (net (wbTokenRequest st)).ok = true →
        csrfTokenOf (net (wbTokenRequest st)) = some (.str s) → s ≠ "" →
        (editEntity st net f id data summary).trace
          = [wbTokenRequest st, entityWriteRequest st f id data summary s] ∧
        (entityWriteRequest st f id data summary s).body.lookup "token" = some s ∧
        (entityWriteRequest st f id data summary s).method = .post) ∧
    (∀ (st : ServerState) (net : Net) (f : Json → String) (id prop : String)
        (value : Json) (s : String),
        (net (wbTokenRequest st)).ok = true →
        csrfTokenOf (net (wbTokenRequest st)) = some (.str s) → s ≠ "" →
        (addStatement st net f id prop value).trace
          = [wbTokenRequest st, claimWriteRequest st f id prop value s] ∧
        (claimWriteRequest st f id prop value s).body.lookup "token" = some s ∧
        (claimWriteRequest st f id prop value s).method = .post) := by
  refine ⟨?_, ?_, ?_, ?_, ?_⟩
  · intro st net title content summary s h1 h2 h3
    refine ⟨?_, ?_, rfl⟩
    · simp only [editPage, authenticatedFetch, mwTokenRequest, csrfTokenOf] at h1 h2 ⊢
      simp [h1, h2, jsTruthy, h3, jsParamString, Json.toParamString, editWriteRequest,
        mwTokenRequest]
      split <;> rfl
    · simp [editWriteRequest, List.lookup]
  · intro st net title content summary s h1 h2 h3
    refine ⟨?_, ?_, rfl⟩
    · simp only [createPage, authenticatedFetch, mwTokenRequest, csrfTokenOf] at h1 h2 ⊢
      simp [h1, h2, jsTruthy, h3, jsParamString, Json.toParamString, editWriteRequest,
        mwTokenRequest]
      split <;> rfl
    · simp [editWriteRequest, List.lookup]
  · intro st net title reason s h1 h2 h3
    refine ⟨?_, ?_, rfl⟩
    · simp only [deletePage, authenticatedFetch, mwTokenRequest, csrfTokenOf] at h1 h2 ⊢
      simp [h1, h2, jsTruthy, h3, jsParamString, Json.toParamString, deleteWriteRequest,
        mwTokenRequest]
      split <;> rfl
    · simp [deleteWriteRequest, List.lookup]
  · intro st net f id data summary s h1 h2 h3
    refine ⟨?_, ?_, rfl⟩
    · simp only [editEntity, authenticatedFetch, wbTokenRequest, csrfTokenOf] at h1 h2 ⊢
      simp [h1, h2, jsTruthy, h3, jsParamString, Json.toParamString, entityWriteRequest,
        wbTokenRequest]
      split <;> rfl
    · simp [entityWriteRequest, List.lookup]
  · intro st net f id prop value s h1 h2 h3
    refine ⟨?_, ?_, rfl⟩
    · simp only [addStatement, authenticatedFetch, wbTokenRequest, csrfTokenOf] at h1 h2 ⊢
      simp [h1, h2, jsTruthy, h3, jsParamString, Json.toParamString, claimWriteRequest,
        wbTokenRequest]
      split <;> rfl
    · simp [claimWriteRequest, List.lookup]

/-- A network in which every write POST reports success; the token fetch
returns `TOK+123`. -/
def netWriteSuccess : Net := fun r =>
  match r.method with
  | .get => okJsonResponse (csrfTokenBody "TOK+123")
  | .post => okJsonResponse (.obj [("edit", .obj [("result", .str "Success")])])

/-- C1 witness: the editPage conjunct at a concrete state and network. -/
theorem claim_C1_witness :
    (editPage initialState netWriteSuccess "Title" "Body" none).trace
      = [mwTokenRequest initialState,
         editWriteRequest initialState "Title" "Body" none "TOK+123"] ∧
    (editWriteRequest initialState "Title" "Body" none "TOK+123").body.lookup "token"
      = some "TOK+123" ∧
    (editWriteRequest initialState "Title" "Body" none "TOK+123").method = .post :=
  claim_C1_token_fetch_precedes_write.1 initialState netWriteSuccess "Title" "Body" none
    "TOK+123" rfl rfl (by decide)

/-- C4: for each of the five mutating handlers, a transport-successful
token-fetch response that lacks the `query.tokens.csrftoken` field makes the
handler fail with the corresponding token-missing message after dispatching
only the token-fetch GET — no write POST is performed. -/
theorem claim_C4_missing_token_aborts_write :
    (∀ (st : ServerState) (net : Net) (title content : String) (summary : Option String),
        (net (mwTokenRequest st)).ok = true →
        csrfTokenOf (net (mwTokenRequest st)) = none →
        editPage st net title content summary
          = ⟨st, [mwTokenRequest st], .error "Failed to retrieve edit token."⟩) ∧
    (∀ (st : ServerState) (net : Net) (title content : String) (summary : Option String),
        (net (mwTokenRequest st)).ok = true →
        csrfTokenOf (net (mwTokenRequest st)) = none →
        createPage st net title content summary
          = ⟨st, [mwTokenRequest st], .error "Failed to retrieve edit token."⟩) ∧
    (∀ (st : ServerState) (net : Net) (title : String) (reason : Option String),
        (net (mwTokenRequest st)).ok = true →
        csrfTokenOf (net (mwTokenRequest st)) = none →
        deletePage st net title reason
          = ⟨st, [mwTokenRequest st], .error "Failed to retrieve delete token."⟩) ∧
    (∀ (st : ServerState) (net : Net) (f : Json → String) (id : Option String)
        (data : Json) (summary : Option String),
        (net (wbTokenRequest st)).ok = true →
        csrfTokenOf (net (wbTokenRequest st)) = none →
        editEntity st net f id data summary
          = ⟨st, [wbTokenRequest st], .error "Failed to retrieve edit token."⟩) ∧
    (∀ (st : ServerState) (net : Net) (f : Json → String) (id prop : String) (value : Json),
        (net (wbTokenRequest st)).ok = true →
        csrfTokenOf (net (wbTokenRequest st)) = none →
        addStatement st net f id prop value
          = ⟨st, [wbTokenRequest st], .error "Failed to retrieve claim token."⟩) := by
  refine ⟨?_, ?_, ?_, ?_, ?_⟩
  · intro st net title content summary h1 h2
    simp only [editPage, authenticatedFetch, mwTokenRequest, csrfTokenOf] at h1 h2 ⊢
    simp [h1, h2, jsTruthy, mwTokenRequest]
  · intro st net title content summary h1 h2
    simp only [createPage, authenticatedFetch, mwTokenRequest, csrfTokenOf] at h1 h2 ⊢
    simp [h1, h2, jsTruthy, mwTokenRequest]
  · intro st net title reason h1 h2
    simp only [deletePage, authenticatedFetch, mwTokenRequest, csrfTokenOf] at h1 h2 ⊢
    simp [h1, h2, jsTruthy, mwTokenRequest]
  · intro st net f id data summary h1 h2
    simp only [editEntity, authenticatedFetch, wbTokenRequest, csrfTokenOf] at h1 h2 ⊢
    simp [h1, h2, jsTruthy, wbTokenRequest]
  · intro st net f id prop value h1 h2
    simp only [addStatement, authenticatedFetch, wbTokenRequest, csrfTokenOf] at h1 h2 ⊢
    simp [h1, h2, jsTruthy, wbTokenRequest]

/-- A network whose responses are transport-successful but carry an empty
JSON object, so every expected field is absent. -/
def netEmptyPayload : Net := fun _ => okJsonResponse (.obj [])

/-- C4 witness: the editPage conjunct at a concrete state and network. -/
theorem claim_C4_witness :
    editPage initialState netEmptyPayload "Title" "Body" none
      = ⟨initialState, [mwTokenRequest initialState],
         .error "Failed to retrieve edit token."⟩ :=
  claim_C4_missing_token_aborts_write.1 initialState netEmptyPayload "Title" "Body" none
    rfl rfl

/-- C5: for each of the five mutating handlers, once the token phase has
succeeded the outcome is exactly: a transport-failed write POST throws the
operation's upstream-failure message, while a transport-successful write
returns `success := (discriminator === expected literal)` — so any
discriminator other than the exact literal (`"Success"` for the MediaWiki
writes, `1` for the Wikibase writes) yields a returned `success: false`,
never a thrown error. -/
theorem claim_C5_discriminator_vs_transport :
    (∀ (st : ServerState) (net : Net) (title content : String)
        (summary : Option String) (s : String),
        (net (mwTokenRequest st)).ok = true →
        csrfTokenOf (net (mwTokenRequest st)) = some (.str s) → s ≠ "" →
        editPage st net title content summary
          = ⟨st, [mwTokenRequest st, editWriteRequest st title content summary s],
             if (net (editWriteRequest st title content summary s)).ok then
               .ok ⟨jsEqStr (jsGet (net (editWriteRequest st title content summary s)).body
                 ["edit", "result"]) "Success"⟩
             else
               .error ("Failed to edit page: " ++
                 (net (editWriteRequest st title content summary s)).statusText)⟩) ∧
    (∀ (st : ServerState) (net : Net) (title content : String)
        (summary : Option String) (s : String),
        (net (mwTokenRequest st)).ok = true →
        csrfTokenOf (net (mwTokenRequest st)) = some (.str s) → s ≠ "" →
        createPage st net title content summary
          = ⟨st, [mwTokenRequest st, editWriteRequest st title content summary s],
             if (net (editWriteRequest st title content summary s)).ok then
               .ok ⟨jsEqStr (jsGet (net (editWriteRequest st title content summary s)).body
                 ["edit", "result"]) "Success"⟩
             else
               .error ("Failed to create page: " ++
                 (net (editWriteRequest st title content summary s)).statusText)⟩) ∧
    (∀ (st : ServerState) (net : Net) (title : String)
        (reason : Option String) (s : String),
        (net (mwTokenRequest st)).ok = true →
        csrfTokenOf (net (mwTokenRequest st)) = some (.str s) → s ≠ "" →
        deletePage st net title reason
          = ⟨st, [mwTokenRequest st, deleteWriteRequest st title reason s],
             if (net (deleteWriteRequest st title reason s)).ok then
               .ok ⟨jsEqStr (jsGet (net (deleteWriteRequest st title reason s)).body
                 ["delete", "result"]) "Success"⟩
             else
               .error ("Failed to delete page: " ++
                 (net (deleteWriteRequest st title reason s)).statusText)⟩) ∧
    (∀ (st : ServerState) (net : Net) (f : Json → String) (id : Option String)
        (data : Json) (summary : Option String) (s : String),
        (net (wbTokenRequest st)).ok = true →
        csrfTokenOf (net (wbTokenRequest st)) = some (.str s) → s ≠ "" →
        editEntity st net f id data summary
          = ⟨st, [wbTokenRequest st, entityWriteRequest st f id data summary s],
             if (net (entityWriteRequest st f id data summary s)).ok then
               .ok ⟨jsEqNum (jsGet (net (entityWriteRequest st f id data summary s)).body
                    ["success"]) 1,
                  jsGet (net (entityWriteRequest st f id data summary s)).body ["entity", "id"]⟩
             else
               .error ("Failed to edit entity: " ++
                 (net (entityWriteRequest st f id data summary s)).statusText)⟩) ∧
    (∀ (st : ServerState) (net : Net) (f : Json → String) (id prop : String)
        (value : Json) (s : String),
        (net (wbTokenRequest st)).ok = true →
        csrfTokenOf (net (wbTokenRequest st)) = some (.str s) → s ≠ "" →
        addStatement st net f id prop value
          = ⟨st, [wbTokenRequest st, claimWriteRequest st f id prop value s],
             if (net (claimWriteRequest st f id prop value s)).ok then
               .ok ⟨jsEqNum (jsGet (net (claimWriteRequest st f id prop value s)).body
                 ["success"]) 1⟩
             else
               .error ("Failed to add statement: " ++
                 (net (claimWriteRequest st f id prop value s)).statusText)⟩) := by
  refine ⟨?_, ?_, ?_, ?_, ?_⟩
  · intro st net title content summary s h1 h2 h3
    simp only [editPage, authenticatedFetch, mwTokenRequest, csrfTokenOf] at h1 h2 ⊢
    simp only [editWriteRequest, mwTokenRequest]
    simp [h1, h2, jsTruthy, h3, jsParamString, Json.toParamString]
    split
    next hw => simp [hw]
    next hw => simp at hw; simp [hw]
  · intro st net title content summary s h1 h2 h3
    simp only [createPage, authenticatedFetch, mwTokenRequest, csrfTokenOf] at h1 h2 ⊢
    simp only [editWriteRequest, mwTokenRequest]
    simp [h1, h2, jsTruthy, h3, jsParamString, Json.toParamString]
    split
    next hw => simp [hw]
    next hw => simp at hw; simp [hw]
  · intro st net title reason s h1 h2 h3
    simp only [deletePage, authenticatedFetch, mwTokenRequest, csrfTokenOf] at h1 h2 ⊢
    simp only [deleteWriteRequest, mwTokenRequest]
    simp [h1, h2, jsTruthy, h3, jsParamString, Json.toParamString]
    split
    next hw => simp [hw]
    next hw => simp at hw; simp [hw]
  · intro st net f id data summary s h1 h2 h3
    simp only [editEntity, authenticatedFetch, wbTokenRequest, csrfTokenOf] at h1 h2 ⊢
    simp only [entityWriteRequest, wbTokenRequest]
    simp [h1, h2, jsTruthy, h3, jsParamString, Json.toParamString]
    split
    next hw => simp [hw]
    next hw => simp at hw; simp [hw]
  · intro st net f id prop value s h1 h2 h3
    simp only [addStatement, authenticatedFetch, wbTokenRequest, csrfTokenOf] at h1 h2 ⊢
    simp only [claimWriteRequest, wbTokenRequest]
    simp [h1, h2, jsTruthy, h3, jsParamString, Json.toParamString]
    split
    next hw => simp [hw]
    next hw => simp at hw; simp [hw]

/-- A network whose write POST is transport-successful but reports
`edit.result = "Failure"`; the token fetch returns `TOK`. -/
def netWriteFailure : Net := fun r =>
  match r.method with
  | .get => okJsonResponse (csrfTokenBody "TOK")
  | .post => okJsonResponse (.obj [("edit", .obj [("result", .str "Failure")])])

/-- C5 witness: at a concrete network whose write payload reports
`edit.result = "Failure"`, `editPage` returns `success: false` rather than
throwing. -/
theorem claim_C5_witness :
    editPage initialState netWriteFailure "Title" "Body" none
      = ⟨initialState,
         [mwTokenRequest initialState, editWriteRequest initialState "Title" "Body" none "TOK"],
         .ok ⟨false⟩⟩ := by
  have h := claim_C5_discriminator_vs_transport.1 initialState netWriteFailure
    "Title" "Body" none "TOK" rfl rfl (by decide)
  rw [h]
  rfl

/-- A content-fetch payload: one page entry whose first revision stores the
given raw text under `"*"`. -/
def contentBody (text : String) : Json :=
  .obj [("query", .obj [("pages", .obj [("123",
    .obj [("revisions", .arr [.obj [("*", .str text)]])])])])]

/-- C6 counterexample: a transport-successful response whose first page
entry has a revision storing the empty string is rejected with the
not-found error instead of returning the empty string, contradicting the
claim for the empty-string case. -/
theorem claim_C6_counterexample :
    contentOf (okJsonResponse (contentBody "")) = some (.str "") ∧
    (getPageContent initialState (fun _ => okJsonResponse (contentBody "")) "Title").result
      = .error "Page \"Title\" not found or has no content." :=
  ⟨rfl, rfl⟩

/-- C6 (amended): on a transport-successful content-fetch response, a first
page entry without a `revisions` field fails with the not-found error, a
first revision storing a non-empty content string is returned exactly, byte
for byte — but a first revision storing the EMPTY string is also rejected
with the not-found error (the handler tests JavaScript truthiness of the
content, and the empty string is falsy). -/
theorem claim_C6_content_fetch :
    (∀ (st : ServerState) (net : Net) (title : String),
        (net (contentRequest st title)).ok = true →
        jsField (firstPageOf (net (contentRequest st title))) "revisions" = none →
        (getPageContent st net title).result
          = .error ("Page \"" ++ title ++ "\" not found or has no content.")) ∧
    (∀ (st : ServerState) (net : Net) (title s : String),
        (net (contentRequest st title)).ok = true →
        contentOf (net (contentRequest st title)) = some (.str s) → s ≠ "" →
        (getPageContent st net title).result = .ok (.str s)) ∧
    (∀ (st : ServerState) (net : Net) (title : String),
        (net (contentRequest st title)).ok = true →
        contentOf (net (contentRequest st title)) = some (.str "") →
        (getPageContent st net title).result
          = .error ("Page \"" ++ title ++ "\" not found or has no content.")) := by
  refine ⟨?_, ?_, ?_⟩
  · intro st net title h1 h2
    simp only [getPageContent, authenticatedFetch, contentRequest] at h1 ⊢
    simp only [firstPageOf, contentRequest] at h2
    rw [h2]
    simp [h1, jsTruthy]
  · intro st net title s h1 h2 h3
    simp only [getPageContent, authenticatedFetch, contentRequest] at h1 ⊢
    simp only [contentOf, firstPageOf, contentRequest] at h2
    rw [h2]
    simp [h1, jsTruthy, h3]
  · intro st net title h1 h2
    simp only [getPageContent, authenticatedFetch, contentRequest] at h1 ⊢
    simp only [contentOf, firstPageOf, contentRequest] at h2
    rw [h2]
    simp [h1, jsTruthy]

/-- C6 witness: the non-empty-content conjunct at a concrete network. -/
theorem claim_C6_witness :
    (getPageContent initialState (fun _ => okJsonResponse (contentBody "Hello, wiki"))
        "Title").result = .ok (.str "Hello, wiki") :=
  claim_C6_content_fetch.2.1 initialState (fun _ => okJsonResponse (contentBody "Hello, wiki"))
    "Title" "Hello, wiki" rfl rfl (by decide)

/-- C7: when both login steps succeed at the transport and payload level but
the login response carries no `set-cookie` header, `loginAsBot` still
returns success, the session cookie ends up unset, and every request then
dispatched through `authenticatedFetch` goes out with exactly the caller's
headers — no credential header is attached. -/
theorem claim_C7_login_without_cookie_header :
    ∀ (st : ServerState) (net : Net) (u p t : String),
      (net (loginTokenRequest st)).ok = true →
      jsGet (net (loginTokenRequest st)).body ["query", "tokens", "logintoken"]
        = some (.str t) → t ≠ "" →
      (net (loginRequest st u p t)).ok = true →
      jsGet (net (loginRequest st u p t)).body ["login", "result"] = some (.str "Success") →
      getHeader (net (loginRequest st u p t)).headers "set-cookie" = none →
      loginAsBot st net u p
        = ⟨{ st with sessionCookie := none },
           [loginTokenRequest st, loginRequest st u p t], .ok ()⟩ ∧
      (∀ (m : Method) (url : String) (hs bd : List (String × String)),
        (authenticatedFetch (loginAsBot st net u p).state net m url hs bd).1.headers = hs) := by
  intro st net u p t h1 h2 h3 h4 h5 h6
  have hmain : loginAsBot st net u p
      = ⟨{ st with sessionCookie := none },
         [loginTokenRequest st, loginRequest st u p t], .ok ()⟩ := by
    simp only [loginAsBot, loginTokenRequest, loginRequest] at h1 h2 h4 h5 h6 ⊢
    simp [h1, h2, jsTruthy, h3, jsParamString, Json.toParamString, h4, h5, h6, jsEqStr]
  refine ⟨hmain, ?_⟩
  intro m url hs bd
  rw [hmain]
  simp [authenticatedFetch, authHeaders]

/-- A network in which the login handshake succeeds but the login response
carries no headers at all, in particular no `set-cookie`. -/
def netLoginNoCookie : Net := fun r =>
  match r.method with
  | .get =>
    okJsonResponse (.obj [("query", .obj [("tokens", .obj [("logintoken", .str "LTOK")])])])
  | .post => okJsonResponse (.obj [("login", .obj [("result", .str "Success")])])

/-- C7 witness: the theorem at a concrete network, with one concrete
follow-up `authenticatedFetch` dispatched without a credential header. -/
theorem claim_C7_witness :
    loginAsBot initialState netLoginNoCookie "BotUser" "BotPass"
      = ⟨{ initialState with sessionCookie := none },
         [loginTokenRequest initialState,
          loginRequest initialState "BotUser" "BotPass" "LTOK"], .ok ()⟩ ∧
    (authenticatedFetch (loginAsBot initialState netLoginNoCookie "BotUser" "BotPass").state
        netLoginNoCookie .get "https://en.wikipedia.org/w/api.php" uaHeader []).1.headers
      = uaHeader := by
  have h := claim_C7_login_without_cookie_header initialState netLoginNoCookie
    "BotUser" "BotPass" "LTOK" rfl rfl (by decide) rfl rfl rfl
  exact ⟨h.1, h.2 .get "https://en.wikipedia.org/w/api.php" uaHeader []⟩

/-- C2 counterexample: a configuration carrying `botUsername` but no
`botPassword` is accepted — `onConfigure` returns success with an empty
request trace — rather than failing with a configuration error:
`ConfigSchema` marks both credential fields optional and the login branch
merely tests `botUsername && botPassword`. -/
theorem claim_C2_counterexample :
    onConfigure initialState netEmptyPayload (fun _ => true)
        ⟨none, none, some "BotUser", none⟩
      = ⟨initialState, [], .ok ()⟩ :=
  rfl

/-- C2 (amended): when the configuration parses and exactly one of
`botUsername` / `botPassword` is present, configuration SUCCEEDS silently:
no network call (in particular no login-token fetch) is attempted, login is
skipped, and the session credential is left unchanged. -/
theorem claim_C2_single_credential_skips_login :
    ∀ (st : ServerState) (net : Net) (validUrl : String → Bool) (cfg : Config),
      parseConfig validUrl cfg = .ok cfg →
      (cfg.botUsername ≠ none ∧ cfg.botPassword = none) ∨
        (cfg.botUsername = none ∧ cfg.botPassword ≠ none) →
      (onConfigure st net validUrl cfg).trace = [] ∧
      (onConfigure st net validUrl cfg).result = .ok () ∧
      (onConfigure st net validUrl cfg).state.sessionCookie = st.sessionCookie := by
  intro st net validUrl cfg hp hone
  have hcond : (strTruthy cfg.botUsername && strTruthy cfg.botPassword) = false := by
    rcases hone with ⟨_, hpw⟩ | ⟨hu, _⟩
    · simp [hpw, strTruthy]
    · simp [hu, strTruthy]
  simp only [onConfigure, hp]
  simp [hcond]

/-- C2 witness: the amended statement at the concrete partial-credential
configuration. -/
theorem claim_C2_witness :
    (onConfigure initialState netEmptyPayload (fun _ => true)
        ⟨none, none, some "BotUser", none⟩).trace = [] ∧
    (onConfigure initialState netEmptyPayload (fun _ => true)
        ⟨none, none, some "BotUser", none⟩).result = .ok () ∧
    (onConfigure initialState netEmptyPayload (fun _ => true)
        ⟨none, none, some "BotUser", none⟩).state.sessionCookie
      = initialState.sessionCookie :=
  claim_C2_single_credential_skips_login initialState netEmptyPayload (fun _ => true)
    ⟨none, none, some "BotUser", none⟩ rfl (Or.inl ⟨by simp, rfl⟩)

/-- C8 counterexample: the token fetch `editPage` dispatches carries no
`type` query parameter at all — its URL is the bare
`?action=query&meta=tokens&format=json` — contradicting the claim that
every token fetch carries a `type` parameter naming the token type. -/
theorem claim_C8_counterexample :
    ((editPage initialState netEmptyPayload "Title" "Body" none).trace.head?).map Request.url
      = some "https://en.wikipedia.org/w/api.php?action=query&meta=tokens&format=json" ∧
    ¬ ("type=".data <:+:
        "https://en.wikipedia.org/w/api.php?action=query&meta=tokens&format=json".data) := by
  exact ⟨rfl, by decide⟩

/-- C8 (amended): every operation's first dispatched request is its token
fetch with `action=query`, `meta=tokens`, `format=json`; the login token
fetch carries `type=login` and the Wikibase token fetches (`editEntity`,
`addStatement`) carry `type=csrf`, but the MediaWiki write token fetches
(`editPage`, `createPage`, `deletePage`) omit the `type` parameter,
relying on the upstream default token type. -/
theorem claim_C8_token_fetch_urls :
    (∀ (st : ServerState) (net : Net) (u p : String),
        ((loginAsBot st net u p).trace.head?).map Request.url
          = some (st.mediaWikiAPIBase ++ "?action=query&meta=tokens&type=login&format=json") ∧
        "type=login".data <:+:
          (st.mediaWikiAPIBase ++ "?action=query&meta=tokens&type=login&format=json").data) ∧
    (∀ (st : ServerState) (net : Net) (title content : String) (summary : Option String),
        ((editPage st net title content summary).trace.head?).map Request.url
          = some (st.mediaWikiAPIBase ++ "?action=query&meta=tokens&format=json") ∧
        ((createPage st net title content summary).trace.head?).map Request.url
          = some (st.mediaWikiAPIBase ++ "?action=query&meta=tokens&format=json")) ∧
    (∀ (st : ServerState) (net : Net) (title : String) (reason : Option String),
        ((deletePage st net title reason).trace.head?).map Request.url
          = some (st.mediaWikiAPIBase ++ "?action=query&meta=tokens&format=json")) ∧
    (¬ ("type=".data <:+: "?action=query&meta=tokens&format=json".data)) ∧
    (∀ (st : ServerState) (net : Net) (f : Json → String) (id : Option String)
        (data : Json) (summary : Option String),
        ((editEntity st net f id data summary).trace.head?).map Request.url
          = some (st.wikiBaseAPIBase ++ "?action=query&meta=tokens&format=json&type=csrf") ∧
        "type=csrf".data <:+:
          (st.wikiBaseAPIBase ++ "?action=query&meta=tokens&format=json&type=csrf").data) ∧
    (∀ (st : ServerState) (net : Net) (f : Json → String) (id prop : String) (value : Json),
        ((addStatement st net f id prop value).trace.head?).map Request.url
          = some (st.wikiBaseAPIBase ++ "?action=query&meta=tokens&format=json&type=csrf")) := by
  refine ⟨?_, ?_, ?_, by decide, ?_, ?_⟩
  · intro st net u p
    constructor
    · simp only [loginAsBot]
      repeat' split
      all_goals rfl
    · rw [String.data_append]
      exact (show "type=login".data <:+:
        "?action=query&meta=tokens&type=login&format=json".data by decide).trans
        (List.suffix_append _ _).isInfix
  · intro st net title content summary
    constructor
    · simp only [editPage, authenticatedFetch]
      repeat' split
      all_goals rfl
    · simp only [createPage, authenticatedFetch]
      repeat' split
      all_goals rfl
  · intro st net title reason
    simp only [deletePage, authenticatedFetch]
    repeat' split
    all_goals rfl
  · intro st net f id data summary
    constructor
    · simp only [editEntity, authenticatedFetch]
      repeat' split
      all_goals rfl
    · rw [String.data_append]
      exact (show "type=csrf".data <:+:
        "?action=query&meta=tokens&format=json&type=csrf".data by decide).trans
        (List.suffix_append _ _).isInfix
  · intro st net f id prop value
    simp only [addStatement, authenticatedFetch]
    repeat' split
    all_goals rfl

/-- C9 counterexample: a transport-successful search response without the
`query.search` field makes `getPageSearchResults` silently return an empty
results list instead of raising a failure, contradicting the claim that a
missing payload field is never downgraded to a default value. -/
theorem claim_C9_counterexample :
    jsGet (netEmptyPayload (searchRequest initialState "lean" none)).body ["query", "search"]
      = none ∧
    (getPageSearchResults initialState netEmptyPayload "lean" none).result = .ok ⟨[]⟩ :=
  ⟨rfl, rfl⟩

/-- C9 (amended): transport failures are raised synchronously (shown for the
search handler), but list-shaped payload fields are an additional silent
default: a search response without `query.search` yields `results: []`, and
a metadata page entry without `contributors` yields `contributors: []`,
both without error (`... || []` in the source). -/
theorem claim_C9_failures_and_list_defaults :
    (∀ (st : ServerState) (net : Net) (q : String) (lim : Option Int),
        (net (searchRequest st q lim)).ok = false →
        (getPageSearchResults st net q lim).result
          = .error ("Failed to search pages: " ++ (net (searchRequest st q lim)).statusText)) ∧
    (∀ (st : ServerState) (net : Net) (q : String) (lim : Option Int),
        (net (searchRequest st q lim)).ok = true →
        jsGet (net (searchRequest st q lim)).body ["query", "search"] = none →
        (getPageSearchResults st net q lim).result = .ok ⟨[]⟩) ∧
    (∀ (st : ServerState) (net : Net) (title : String) (pg : Json),
        (net (metadataRequest st title)).ok = true →
        firstPageOf (net (metadataRequest st title)) = some pg →
        jsTruthy (some pg) = true →
        pg.getField "contributors" = none →
        (getPageMetadata st net title).result
          = .ok ⟨pg.getField "pageid", pg.getField "touched", []⟩) := by
  refine ⟨?_, ?_, ?_⟩
  · intro st net q lim h1
    simp only [getPageSearchResults, authenticatedFetch, searchRequest] at h1 ⊢
    simp [h1]
  · intro st net q lim h1 h2
    simp only [getPageSearchResults, authenticatedFetch, searchRequest] at h1 h2 ⊢
    simp [h1, h2]
  · intro st net title pg h1 h2 h3 h4
    simp only [getPageMetadata, authenticatedFetch, metadataRequest] at h1 ⊢
    simp only [firstPageOf, metadataRequest] at h2
    rw [h2]
    simp [h1, h3, h4, jsField]

/-- C9 witness: the missing-search-field conjunct at a concrete network. -/
theorem claim_C9_witness :
    (getPageSearchResults initialState netEmptyPayload "query text" none).result
      = .ok ⟨[]⟩ :=
  claim_C9_failures_and_list_defaults.2.1 initialState netEmptyPayload "query text" none
    rfl rfl
